import Mathlib

/-!
Verification of the `update_plots` callback of `src/app.py` (a Dash app that
merges two per-position variant-score tables and renders a scatter plot and
two heatmaps).

Shallow embedding conventions:
* A CSV dataset (`pandas.DataFrame`) is a `Table`: an ordered list of the
  amino-acid column labels of the contiguous `"A":"Y"` block, and one `Row`
  per sequence position carrying `position`, `wt_aa`, `median_score`, the
  block of variant scores (parallel to `aaCols`), and the boolean-as-string
  flag columns as an association list.
* Numeric scores are `ℚ` (the CSV values are decimal literals).
* `pd.merge(df1, df2, on="position", suffixes=("_1","_2"))` is `mergeRows`:
  an inner join producing, for each left row in order, one merged row per
  matching right row.  Overlapping column names of the two frames are kept
  in the `_1`/`_2` fields of `MergedRow`; `merged_df[c + "_1"]` is the `c`
  column of the first frame, i.e. a lookup in `flags_1`.
* `None` dropdown values are `Option`; a Python exception escaping the
  callback is `Except.error` with the exception message.
* Figures are records keeping exactly the data-bearing arguments the code
  passes to the figure constructors (points, labels, zero-reference line
  endpoints, heatmap matrix/axes/color bounds/hover text).  Purely
  decorative style settings (fonts, grid colors, sizes) are not modelled.
-/

/-- One row of a loaded CSV dataset. -/
structure Row where
  position : Int
  wt_aa : String
  median_score : ℚ
  scores : List ℚ
  flags : List (String × String)
deriving DecidableEq, Inhabited

/-- A loaded CSV dataset: the labels of the `"A":"Y"` score block plus rows. -/
structure Table where
  aaCols : List String
  rows : List Row
deriving DecidableEq, Inhabited

/-- Association-list lookup, the model of Python `dict`/column access. -/
def alookup {κ α : Type} [DecidableEq κ] : List (κ × α) → κ → Option α
  | [], _ => none
  | (k, v) :: rest, key => if k = key then some v else alookup rest key

/-- One row of `merged_df = pd.merge(df1, df2, on="position", suffixes=("_1","_2"))`,
including the synthesized `color` column (initialized to `"gray"` by
`merged_df["color"] = "gray"`, line 93 of `src/app.py`). -/
structure MergedRow where
  position : Int
  wt_aa_1 : String
  wt_aa_2 : String
  median_score_1 : ℚ
  median_score_2 : ℚ
  scores_1 : List ℚ
  scores_2 : List ℚ
  flags_1 : List (String × String)
  flags_2 : List (String × String)
  color : String
deriving DecidableEq, Inhabited

/-- Combine a matching pair of rows into a merged row (`color` starts at the
default `"gray"`). -/
def mkMerged (r1 r2 : Row) : MergedRow :=
  { position := r1.position
    wt_aa_1 := r1.wt_aa
    wt_aa_2 := r2.wt_aa
    median_score_1 := r1.median_score
    median_score_2 := r2.median_score
    scores_1 := r1.scores
    scores_2 := r2.scores
    flags_1 := r1.flags
    flags_2 := r2.flags
    color := "gray" }

/-- Inner join on `position`: for each left row in order, one merged row per
matching right row (the row-pairing semantics of `pd.merge`). -/
def mergeRows (rows1 rows2 : List Row) : List MergedRow :=
  match rows1 with
  | [] => []
  | r1 :: rest =>
      ((rows2.filter fun r2 => decide (r2.position = r1.position)).map (mkMerged r1))
        ++ mergeRows rest rows2

/-- `pd.merge(df1, df2, on="position", suffixes=("_1","_2"))` (line 77). -/
def mergeTables (t1 t2 : Table) : List MergedRow :=
  mergeRows t1.rows t2.rows

/-- The static `color_map` of lines 84-90. -/
def color_map : List (String × String) :=
  [("site_1", "green"), ("site_2", "blue"), ("ab8307_site", "violet"),
   ("ab8314_site", "darkbrown"), ("c_c", "orange")]

/-- `color_map.get(col, "gray")` (line 96). -/
def colorOf (col : String) : String :=
  (alookup color_map col).getD "gray"

/-- `merged_df[col + "_1"] == "yes"`: the flag test against the first file's
column (line 97). -/
def flagYes (flags : List (String × String)) (col : String) : Bool :=
  alookup flags col == some "yes"

/-- One iteration of the coloring loop (line 97):
`merged_df.loc[merged_df[col + "_1"] == "yes", "color"] = color`. -/
def assignStep (rows : List MergedRow) (col : String) : List MergedRow :=
  rows.map fun r => if flagYes r.flags_1 col then { r with color := colorOf col } else r

/-- The whole coloring loop of lines 94-97 over the selected columns. -/
def assignColors (rows : List MergedRow) (cols : List String) : List MergedRow :=
  cols.foldl assignStep rows

/-- The color a single row ends up with, starting from `init`, after the loop
runs over `cols` (per-row view of `assignColors`). -/
def rowColorFrom (flags : List (String × String)) (init : String) (cols : List String) : String :=
  cols.foldl (fun c col => if flagYes flags col then colorOf col else c) init

/-- Per-row color starting from the default `"gray"`. -/
def rowColor (flags : List (String × String)) (cols : List String) : String :=
  rowColorFrom flags "gray" cols

/-- The effective selection: `None` selects nothing, otherwise
`color_columns = color_columns[:4]` (lines 80-81). -/
def effCols (cc : Option (List String)) : List String :=
  match cc with
  | none => []
  | some l => l.take 4

/-- One scatter point: `px.scatter(merged_df, x="median_score_1",
y="median_score_2", color="color", hover_data=["position"])` (lines 100-106). -/
structure ScatterPoint where
  x : ℚ
  y : ℚ
  color : String
  position : Int
deriving DecidableEq, Inhabited

/-- One text label with leader line from the `annotations` block built at
lines 109-121 (x/y anchor and the position text). -/
structure PosLabel where
  x : ℚ
  y : ℚ
  text : Int
deriving DecidableEq, Inhabited

/-- The data-bearing content of the scatter figure: its points, its position
labels, its title, and the endpoints of the two zero-reference lines
(lines 144-161). -/
structure ScatterFig where
  points : List ScatterPoint
  labels : List PosLabel
  title : String
  vline_y0 : ℚ
  vline_y1 : ℚ
  hline_x0 : ℚ
  hline_x1 : ℚ
deriving DecidableEq, Inhabited

/-- The data-bearing content of a `go.Heatmap` figure (lines 185-203 and
242-260): value matrix `z`, x positions, y labels, color-scale bounds, and
the hover-text matrix. -/
structure HeatmapFig where
  z : List (List ℚ)
  x : List Int
  y : List String
  zmin : ℚ
  zmax : ℚ
  text : List (List String)
  title : String
deriving DecidableEq, Inhabited

/-- The callback's three outputs: either the explicit empty result
`{}, {}, {}` of the guard, or the three constructed figures. -/
inductive Output where
  | empty : Output
  | figures (s : ScatterFig) (h1 h2 : HeatmapFig) : Output
deriving DecidableEq, Inhabited

/-- Python `min` over a nonempty iterable; `none` models the `ValueError`
raised on an empty sequence. -/
def listMin : List ℚ → Option ℚ
  | [] => none
  | x :: xs => some (xs.foldl min x)

/-- Python `max` over a nonempty iterable. -/
def listMax : List ℚ → Option ℚ
  | [] => none
  | x :: xs => some (xs.foldl max x)

/-- One merged row as a scatter point. -/
def mkPoint (r : MergedRow) : ScatterPoint :=
  { x := r.median_score_1, y := r.median_score_2, color := r.color, position := r.position }

/-- One merged row as a position label (lines 110-119: x/y anchor and text). -/
def mkLabel (r : MergedRow) : PosLabel :=
  { x := r.median_score_1, y := r.median_score_2, text := r.position }

/-- `"%.4f"`-style rendering of a rational: round to 4 decimal places and
print with exactly 4 fractional digits (model of Python `f"{v:.4f}"`). -/
def fmt4 (q : ℚ) : String :=
  let n : Int := (q * 10000 + 1 / 2).floor
  let sign := if n < 0 then "-" else ""
  let m := n.natAbs
  let frac := toString (m % 10000)
  sign ++ toString (m / 10000) ++ "." ++ String.mk (List.replicate (4 - frac.length) '0') ++ frac

/-- One hover-text cell (line 173 / line 230). -/
def hoverCell (pos : Int) (wt variant : String) (score median : ℚ) : String :=
  "Position: " ++ toString pos ++ "<br>WT aa: " ++ wt ++ "<br>Variant aa: " ++ variant
    ++ "<br>Variant Score: " ++ fmt4 score ++ "<br>Median Score: " ++ fmt4 median

/-- Column `j` of the `"A":"Y"` block, i.e. row `j` of
`df.loc[:, "A":"Y"].values.T`. -/
def colScores (t : Table) (j : Nat) : List ℚ :=
  t.rows.map fun r => (r.scores[j]?).getD 0

/-- `df.loc[:, "A":"Y"].values.T`: the transposed score matrix. -/
def aaT (t : Table) : List (List ℚ) :=
  (List.range t.aaCols.length).map (colScores t)

/-- The hover-text matrix of lines 171-182 (and, identically, 228-239): for
each `(variant, row)` of `zip(df.loc[:,"A":"Y"].columns, df.loc[:,"A":"Y"].values.T)`,
one cell per `zip(df["position"], row, df["wt_aa"], df["median_score"])`.
In the source BOTH heatmaps build this from `df2`. -/
def hover_text (t : Table) : List (List String) :=
  (t.aaCols.zip (aaT t)).map fun vr =>
    List.zipWith (fun r s => hoverCell r.position r.wt_aa vr.1 s r.median_score) t.rows vr.2

/-- A `go.Heatmap` figure: `z` is the transposed `"A":"Y"` block, `x` the
positions, `y` the block labels, fixed `zmin/zmax = ±0.8`. -/
def mkHeatmap (title : String) (t : Table) (text : List (List String)) : HeatmapFig :=
  { z := aaT t
    x := t.rows.map fun r => r.position
    y := t.aaCols
    zmin := -0.8
    zmax := 0.8
    text := text
    title := title }

/-- The scatter figure built from the colored merged rows: one point per row,
labels only for rows whose color differs from the default (line 120), and the
zero-reference line endpoints from `min`/`max` of the merged score columns. -/
def mkScatter (file1 file2 : String) (merged : List MergedRow) (y0 y1 x0 x1 : ℚ) : ScatterFig :=
  { points := merged.map mkPoint
    labels := (merged.filter fun r => r.color != "gray").map mkLabel
    title := "Scatter Plot of " ++ file1 ++ " vs " ++ file2
    vline_y0 := y0
    vline_y1 := y1
    hline_x0 := x0
    hline_x1 := x1 }

/-- Figure construction from the already-colored merged rows (lines 99-277):
the zero-reference lines need `min`/`max` of the merged score columns, which
raise `ValueError` when the merge is empty. -/
def figuresFrom (file1 file2 : String) (df1 df2 : Table) (merged : List MergedRow) :
    Except String Output :=
  match listMin (merged.map fun r => r.median_score_2),
        listMax (merged.map fun r => r.median_score_2),
        listMin (merged.map fun r => r.median_score_1),
        listMax (merged.map fun r => r.median_score_1) with
  | some y0, some y1, some x0, some x1 =>
      .ok (.figures
        (mkScatter file1 file2 merged y0 y1 x0 x1)
        (mkHeatmap file1 df1 (hover_text df2))
        (mkHeatmap file2 df2 (hover_text df2)))
  | _, _, _, _ => .error "min() arg is an empty sequence"

/-- Merge, color, and build the three figures. -/
def buildFigures (file1 file2 : String) (df1 df2 : Table) (ecols : List String) :
    Except String Output :=
  figuresFrom file1 file2 df1 df2 (assignColors (mergeTables df1 df2) ecols)

/-- The `update_plots` callback (lines 70-277).  `data_files` is the startup
dictionary of loaded CSVs; `file1`, `file2`, `color_columns` are the three
dropdown values.  A missing key would raise `KeyError` in Python. -/
def update_plots (data_files : List (String × Table)) (file1 file2 : Option String)
    (color_columns : Option (List String)) : Except String Output :=
  match file1, file2 with
  | some f1, some f2 =>
      if f1 = f2 then .ok .empty
      else
        match alookup data_files f1, alookup data_files f2 with
        | some df1, some df2 => buildFigures f1 f2 df1 df2 (effCols color_columns)
        | _, _ => .error "KeyError"
  | _, _ => .ok .empty

/-- The scatter figure of an `ok`/`figures` result. -/
def scatterOf : Except String Output → ScatterFig
  | .ok (.figures s _ _) => s
  | _ => default

/-- The first heatmap of an `ok`/`figures` result. -/
def heat1Of : Except String Output → HeatmapFig
  | .ok (.figures _ h _) => h
  | _ => default

/-- The second heatmap of an `ok`/`figures` result. -/
def heat2Of : Except String Output → HeatmapFig
  | .ok (.figures _ _ h) => h
  | _ => default

/-- Cell `(j, i)` of a heatmap's value matrix: variant (row) `j`, position
(column) `i`. -/
def getZ (fig : HeatmapFig) (j i : Nat) : Option ℚ :=
  match fig.z[j]? with
  | some zrow => zrow[i]?
  | none => none

/-- The positions appearing in both tables, in first-table order (used to
state the inner-join row count). -/
def sharedPositions (t1 t2 : Table) : List Int :=
  (t1.rows.map fun r => r.position).filter fun p =>
    decide (p ∈ t2.rows.map fun r => r.position)

/-!
### Frame-object model for the mutation claim

Python dataframes are heap objects.  `data_files` maps file names to object
ids; `pd.merge` allocates a fresh object (pandas merge copies, it never
aliases its inputs); `merged_df["color"] = ...` and the `.loc[...] = color`
writes are in-place updates of the object the local `merged_df` points to.
The heap-passing variant below routes every such write through a generic
heap update, so that "the stored tables are never mutated" is a theorem
about which ids get written, not a modelling assumption.
-/

/-- A dataframe object on the Python heap. -/
inductive Frame where
  | table (t : Table) : Frame
  | merged (rows : List MergedRow) : Frame
deriving DecidableEq, Inhabited

/-- The heap of dataframe objects, keyed by object id. -/
abbrev FrameHeap := List (Nat × Frame)

/-- Read a frame object. -/
def heapGet (h : FrameHeap) (id : Nat) : Option Frame :=
  alookup h id

/-- Write a frame object in place (replace if present, allocate otherwise). -/
def heapSet (h : FrameHeap) (id : Nat) (f : Frame) : FrameHeap :=
  match h with
  | [] => [(id, f)]
  | (k, v) :: rest => if k = id then (k, f) :: rest else (k, v) :: heapSet rest id f

/-- An object id not used by any object in the heap. -/
def freshId (h : FrameHeap) : Nat :=
  (h.map fun kv => kv.1).foldr max 0 + 1

/-- The coloring loop acting on the heap: each iteration reads the merged
frame at `mid` and writes the updated frame back to `mid` in place. -/
def colorLoopHeap (mid : Nat) (cols : List String) (h : FrameHeap) : FrameHeap :=
  cols.foldl (fun h col =>
    match heapGet h mid with
    | some (.merged rows) => heapSet h mid (.merged (assignStep rows col))
    | _ => h) h

/-- Heap-passing `update_plots`: identical control flow to `update_plots`,
with the merged frame allocated at a fresh object id and every in-place
write (`merged_df["color"] = "gray"` and the loop's `.loc` writes) routed
through `heapSet`.  Returns the final heap alongside the result. -/
def update_plots_heap (heap : FrameHeap) (names : List (String × Nat))
    (file1 file2 : Option String) (color_columns : Option (List String)) :
    FrameHeap × Except String Output :=
  match file1, file2 with
  | some f1, some f2 =>
      if f1 = f2 then (heap, .ok .empty)
      else
        match alookup names f1, alookup names f2 with
        | some id1, some id2 =>
            match heapGet heap id1, heapGet heap id2 with
            | some (.table df1), some (.table df2) =>
                let mid := freshId heap
                let h1 := heapSet heap mid (.merged (mergeTables df1 df2))
                let h2 := colorLoopHeap mid (effCols color_columns) h1
                (h2,
                 match heapGet h2 mid with
                 | some (.merged rows) => figuresFrom f1 f2 df1 df2 rows
                 | _ => .error "KeyError")
            | _, _ => (heap, .error "KeyError")
        | _, _ => (heap, .error "KeyError")
  | _, _ => (heap, .ok .empty)

/-!
### Concrete example data (used by the witnesses)

`exA`/`exB` realize the spec's scenario: file A has positions `[1,2,3]` with
scores `[0.1,-0.2,0.3]`, file B has positions `[2,3,4]` with scores
`[0.05,-0.1,0.2]`.  Every example row carries all five flag columns, so the
selected columns exist in the merged frame as the schema requires.
-/

/-- All five flag columns set to `"no"`. -/
def noFlags : List (String × String) :=
  [("site_1", "no"), ("site_2", "no"), ("ab8307_site", "no"),
   ("ab8314_site", "no"), ("c_c", "no")]

/-- File A of the spec scenario. -/
def exA : Table :=
  { aaCols := ["A"]
    rows :=
      [ { position := 1, wt_aa := "M", median_score := 0.1, scores := [0.1], flags := noFlags }
      , { position := 2, wt_aa := "S", median_score := -0.2, scores := [-0.2], flags := noFlags }
      , { position := 3, wt_aa := "T", median_score := 0.3, scores := [0.3], flags := noFlags } ] }

/-- File B of the spec scenario. -/
def exB : Table :=
  { aaCols := ["A"]
    rows :=
      [ { position := 2, wt_aa := "K", median_score := 0.05, scores := [0.05], flags := noFlags }
      , { position := 3, wt_aa := "L", median_score := -0.1, scores := [-0.1], flags := noFlags }
      , { position := 4, wt_aa := "V", median_score := 0.2, scores := [0.2], flags := noFlags } ] }

/-- The startup dictionary holding the two scenario files. -/
def exDf : List (String × Table) := [("A.csv", exA), ("B.csv", exB)]

/-- The callback result on the scenario with no flag columns selected. -/
def exRes : Except String Output :=
  update_plots exDf (some "A.csv") (some "B.csv") none

/-- A one-row table whose flag `site_1` is `"yes"` (first file of the
coloring examples). -/
def exC1 : Table :=
  { aaCols := ["A"]
    rows :=
      [ { position := 7, wt_aa := "M", median_score := 0.5, scores := [0.5]
          flags := [("site_1", "yes"), ("site_2", "no"), ("ab8307_site", "no"),
                    ("ab8314_site", "no"), ("c_c", "no")] } ] }

/-- A one-row table sharing position 7 (second file of the coloring examples). -/
def exC2 : Table :=
  { aaCols := ["A"]
    rows :=
      [ { position := 7, wt_aa := "K", median_score := 0.25, scores := [0.25], flags := noFlags } ] }

/-- Startup dictionary for the coloring examples. -/
def exDfC : List (String × Table) := [("one.csv", exC1), ("two.csv", exC2)]

/-- Coloring-example result with `site_1` selected. -/
def exResC : Except String Output :=
  update_plots exDfC (some "one.csv") (some "two.csv") (some ["site_1"])

/-- The colored merged rows of the coloring example. -/
def exColoredC : List MergedRow :=
  assignColors (mergeTables exC1 exC2) ["site_1"]

/-- Two one-row tables with disjoint positions (the empty-merge input). -/
def exDisjA : Table :=
  { aaCols := ["A"]
    rows := [ { position := 1, wt_aa := "M", median_score := 0.1, scores := [0.1], flags := noFlags } ] }

/-- Second disjoint-position table. -/
def exDisjB : Table :=
  { aaCols := ["A"]
    rows := [ { position := 2, wt_aa := "K", median_score := 0.2, scores := [0.2], flags := noFlags } ] }

/-- Startup dictionary for the disjoint-position input. -/
def exDfDisj : List (String × Table) := [("a.csv", exDisjA), ("b.csv", exDisjB)]

/-- A merged row satisfying both `site_1` and `c_c` (for the last-write-wins
example). -/
def exRow3 : MergedRow :=
  { position := 5, wt_aa_1 := "M", wt_aa_2 := "K", median_score_1 := 0.1,
    median_score_2 := 0.2, scores_1 := [0.1], scores_2 := [0.2],
    flags_1 := [("site_1", "yes"), ("site_2", "no"), ("ab8307_site", "no"),
                ("ab8314_site", "no"), ("c_c", "yes")]
    flags_2 := noFlags, color := "gray" }

/-- A table whose single row carries a flag column (`special`) absent from
the static `color_map`, set to `"yes"`, and `site_1` set to `"no"`. -/
def exD1 : Table :=
  { aaCols := ["A"]
    rows :=
      [ { position := 3, wt_aa := "M", median_score := 0.1, scores := [0.1]
          flags := [("site_1", "no"), ("special", "yes")] } ] }

/-- Partner table for `exD1`, sharing position 3. -/
def exD2 : Table :=
  { aaCols := ["A"]
    rows :=
      [ { position := 3, wt_aa := "K", median_score := 0.2, scores := [0.2]
          flags := [("site_1", "no"), ("special", "yes")] } ] }

/-!
### Structural lemmas about the embedding
-/

/-- The coloring loop is a per-row map: each row ends with the color obtained
by folding the loop over its own flags, starting from its current color. -/
theorem assignColors_eq_map (rows : List MergedRow) (cols : List String) :
    assignColors rows cols =
      rows.map fun r => { r with color := rowColorFrom r.flags_1 r.color cols } := by
  induction cols generalizing rows with
  | nil =>
      exact (List.map_id rows).symm
  | cons c cs ih =>
      show assignColors (assignStep rows c) cs = _
      rw [ih, assignStep, List.map_map]
      congr 1
      funext r
      cases hb : flagYes r.flags_1 c <;>
        simp only [Function.comp_apply, hb, Bool.false_eq_true, if_false, if_true,
          rowColorFrom, List.foldl_cons]

/-- The coloring loop preserves the number of rows. -/
theorem length_assignColors (rows : List MergedRow) (cols : List String) :
    (assignColors rows cols).length = rows.length := by
  rw [assignColors_eq_map, List.length_map]

/-- The coloring loop preserves each row's `position`. -/
theorem positions_assignColors (rows : List MergedRow) (cols : List String) :
    (assignColors rows cols).map MergedRow.position = rows.map MergedRow.position := by
  rw [assignColors_eq_map, List.map_map]
  rfl

/-- Indexing into the colored rows. -/
theorem assignColors_getElem? (rows : List MergedRow) (cols : List String) (i : Nat) :
    (assignColors rows cols)[i]? =
      (rows[i]?).map fun r => { r with color := rowColorFrom r.flags_1 r.color cols } := by
  rw [assignColors_eq_map, List.getElem?_map]

/-- The folded color is decided by the LAST selected column the row
satisfies: `colorOf` of that column, or the initial color when the row
satisfies none. -/
theorem rowColorFrom_spec (flags : List (String × String)) (init : String) (cols : List String) :
    rowColorFrom flags init cols =
      match (cols.filter fun c => flagYes flags c).getLast? with
      | some c => colorOf c
      | none => init := by
  induction cols using List.reverseRecOn with
  | nil => rfl
  | append_singleton l a ih =>
      cases hb : flagYes flags a with
      | true =>
          simp only [rowColorFrom, List.foldl_append, List.foldl_cons, List.foldl_nil, hb,
            if_true, List.filter_append, List.filter_cons, List.filter_nil, List.getLast?_concat]
      | false =>
          simp only [rowColorFrom, List.foldl_append, List.foldl_cons, List.foldl_nil, hb,
            Bool.false_eq_true, if_false, List.filter_append, List.filter_cons,
            List.filter_nil, List.append_nil]
          exact ih

/-- No row of `rows` has position `p`: the join filter is empty. -/
theorem filter_pos_eq_nil {p : Int} {rows : List Row}
    (h : p ∉ rows.map fun r => r.position) :
    (rows.filter fun r => decide (r.position = p)) = [] := by
  induction rows with
  | nil => rfl
  | cons r rs ih =>
      simp only [List.map_cons, List.mem_cons, not_or] at h
      obtain ⟨h1, h2⟩ := h
      have hne : ¬r.position = p := fun hh => h1 hh.symm
      simp [List.filter_cons, hne, ih h2]

/-- With duplicate-free right positions, the join filter keeps exactly one
row when `p` occurs on the right and none otherwise. -/
theorem filter_pos_length {p : Int} {rows : List Row}
    (hn : (rows.map fun r => r.position).Nodup) :
    (rows.filter fun r => decide (r.position = p)).length =
      if p ∈ rows.map (fun r => r.position) then 1 else 0 := by
  induction rows with
  | nil => simp
  | cons r rs ih =>
      rw [List.map_cons, List.nodup_cons] at hn
      obtain ⟨hnr, hns⟩ := hn
      by_cases hp : r.position = p
      · subst hp
        have hzero : (rs.filter fun r2 => decide (r2.position = r.position)) = [] :=
          filter_pos_eq_nil hnr
        simp [List.filter_cons, hzero, List.mem_cons]
      · have hne : ¬p = r.position := fun hh => hp hh.symm
        simp [List.filter_cons, hp, List.mem_cons, hne, ih hns]

/-- Inner-join row count: with duplicate-free right positions, the merge has
one row per left row whose position also occurs on the right. -/
theorem length_mergeRows (rows1 rows2 : List Row)
    (hn2 : (rows2.map fun r => r.position).Nodup) :
    (mergeRows rows1 rows2).length =
      ((rows1.map fun r => r.position).filter fun p =>
        decide (p ∈ rows2.map fun r => r.position)).length := by
  induction rows1 with
  | nil => rfl
  | cons r1 rest ih =>
      simp only [mergeRows, List.length_append, List.length_map, List.map_cons,
        List.filter_cons]
      rw [filter_pos_length hn2, ih]
      by_cases hm : r1.position ∈ rows2.map fun r => r.position
      · simp only [hm, if_true, decide_eq_true_eq, List.length_cons]
        omega
      · simp only [hm, if_false, decide_eq_true_eq]
        simp [hm]

/-- Table-level inner-join row count. -/
theorem length_mergeTables (t1 t2 : Table)
    (hn2 : (t2.rows.map fun r => r.position).Nodup) :
    (mergeTables t1 t2).length = (sharedPositions t1 t2).length :=
  length_mergeRows t1.rows t2.rows hn2

/-- The merged positions form a sublist of the left table's positions when
the right positions are duplicate-free. -/
theorem mergeRows_positions_sublist (rows1 rows2 : List Row)
    (hn2 : (rows2.map fun r => r.position).Nodup) :
    List.Sublist ((mergeRows rows1 rows2).map MergedRow.position)
      (rows1.map fun r => r.position) := by
  induction rows1 with
  | nil => simp [mergeRows]
  | cons r1 rest ih =>
      simp only [mergeRows, List.map_append, List.map_cons]
      rcases hfl : rows2.filter (fun r2 => decide (r2.position = r1.position)) with _ | ⟨x, xs⟩
      · simpa [hfl] using ih.cons r1.position
      · have hle : (x :: xs).length ≤ 1 := by
          rw [← hfl, filter_pos_length hn2]
          split <;> simp
        have hxs : xs = [] := by
          cases xs with
          | nil => rfl
          | cons y ys => simp at hle
        subst hxs
        simpa [hfl, mkMerged] using ih.cons₂ r1.position

/-- With duplicate-free positions on both sides, the merged rows have
duplicate-free positions. -/
theorem nodup_merge_positions (t1 t2 : Table)
    (hn1 : (t1.rows.map fun r => r.position).Nodup)
    (hn2 : (t2.rows.map fun r => r.position).Nodup) :
    ((mergeTables t1 t2).map MergedRow.position).Nodup :=
  (mergeRows_positions_sublist t1.rows t2.rows hn2).nodup hn1

/-- Every row the merge produces starts with the default color. -/
theorem color_of_mem_mergeRows {rows1 rows2 : List Row} {r : MergedRow}
    (hr : r ∈ mergeRows rows1 rows2) : r.color = "gray" := by
  induction rows1 with
  | nil => simp [mergeRows] at hr
  | cons r1 rest ih =>
      rw [mergeRows, List.mem_append] at hr
      rcases hr with hr | hr
      · obtain ⟨a, _, rfl⟩ := List.mem_map.mp hr
        rfl
      · exact ih hr

/-- Inverting a successful callback run: the scatter points and labels come
from the colored merge, and each heatmap is built from its own table with
the hover text built from the SECOND table. -/
theorem update_ok_inv (df : List (String × Table)) (f1 f2 : String) (t1 t2 : Table)
    (cc : Option (List String)) (s : ScatterFig) (g1 g2 : HeatmapFig)
    (hl1 : alookup df f1 = some t1) (hl2 : alookup df f2 = some t2) (hne : f1 ≠ f2)
    (hok : update_plots df (some f1) (some f2) cc = .ok (.figures s g1 g2)) :
    s.points = (assignColors (mergeTables t1 t2) (effCols cc)).map mkPoint ∧
    s.labels = ((assignColors (mergeTables t1 t2) (effCols cc)).filter fun r =>
      r.color != "gray").map mkLabel ∧
    g1 = mkHeatmap f1 t1 (hover_text t2) ∧
    g2 = mkHeatmap f2 t2 (hover_text t2) := by
  have hred : update_plots df (some f1) (some f2) cc =
      match alookup df f1, alookup df f2 with
      | some df1, some df2 => buildFigures f1 f2 df1 df2 (effCols cc)
      | _, _ => .error "KeyError" := by
    show (if f1 = f2 then Except.ok Output.empty else _) = _
    rw [if_neg hne]
  rw [hred, hl1, hl2] at hok
  dsimp only at hok
  unfold buildFigures figuresFrom at hok
  split at hok
  · rw [Except.ok.injEq, Output.figures.injEq] at hok
    obtain ⟨hs, hg1, hg2⟩ := hok
    subst hs; subst hg1; subst hg2
    exact ⟨rfl, rfl, rfl, rfl⟩
  · exact absurd hok (by simp)

/-- Cell `(j, i)` of a constructed heatmap is the source table's score at
row `i`, block column `j`. -/
theorem getZ_mkHeatmap (title : String) (t : Table) (text : List (List String))
    (j i : Nat) (r : Row) (v : ℚ) (hr : t.rows[i]? = some r) (hj : j < t.aaCols.length)
    (hv : r.scores[j]? = some v) :
    getZ (mkHeatmap title t text) j i = some v := by
  unfold getZ mkHeatmap aaT
  rw [List.getElem?_map, List.getElem?_range hj]
  show (colScores t j)[i]? = some v
  unfold colScores
  rw [List.getElem?_map, hr]
  simp [hv]

/-!
### Heap lemmas for the mutation claim
-/

/-- Writing one object leaves every other object unchanged. -/
theorem heapGet_set_ne (h : FrameHeap) (k id : Nat) (f : Frame) (hne : id ≠ k) :
    heapGet (heapSet h k f) id = heapGet h id := by
  induction h with
  | nil =>
      have h1 : ¬k = id := fun hh => hne hh.symm
      simp [heapSet, heapGet, alookup, h1]
  | cons kv rest ih =>
      obtain ⟨k', v⟩ := kv
      show heapGet (if k' = k then (k', f) :: rest else (k', v) :: heapSet rest k f) id = _
      by_cases hk : k' = k
      · subst hk
        have h1 : ¬k' = id := fun hh => hne hh.symm
        simp [heapGet, alookup, h1]
      · rw [if_neg hk]
        by_cases hk2 : k' = id
        · simp [heapGet, alookup, hk2]
        · show alookup ((k', v) :: heapSet rest k f) id = alookup ((k', v) :: rest) id
          rw [alookup, alookup, if_neg hk2, if_neg hk2]
          exact ih

/-- An id above every key of the heap is unallocated. -/
theorem heapGet_none_of_gt (h : FrameHeap) (id : Nat)
    (hid : ∀ k ∈ h.map fun kv => kv.1, k < id) : heapGet h id = none := by
  induction h with
  | nil => rfl
  | cons kv rest ih =>
      obtain ⟨k, v⟩ := kv
      have hk : k < id := hid k (by simp)
      have hrest : heapGet rest id = none :=
        ih fun k' hk' => hid k' (List.mem_cons_of_mem _ hk')
      have h1 : ¬k = id := Nat.ne_of_lt hk
      simpa [heapGet, alookup, h1] using hrest

/-- Every member of a list of naturals is bounded by the folded maximum. -/
theorem le_foldr_max (l : List Nat) (k : Nat) (hk : k ∈ l) : k ≤ l.foldr max 0 := by
  induction l with
  | nil => cases hk
  | cons a t ih =>
      rcases List.mem_cons.mp hk with rfl | h
      · exact le_max_left _ _
      · exact le_trans (ih h) (le_max_right _ _)

/-- The fresh id is unallocated. -/
theorem heapGet_freshId (h : FrameHeap) : heapGet h (freshId h) = none :=
  heapGet_none_of_gt h _ fun k hk => by
    have := le_foldr_max _ k hk
    simp only [freshId]
    omega

/-- The coloring loop writes only to the merged frame's id. -/
theorem colorLoopHeap_preserves (mid : Nat) (cols : List String) (h : FrameHeap) (id : Nat)
    (hne : id ≠ mid) : heapGet (colorLoopHeap mid cols h) id = heapGet h id := by
  induction cols generalizing h with
  | nil => rfl
  | cons c cs ih =>
      show heapGet (colorLoopHeap mid cs _) id = _
      rw [ih]
      rcases hm : heapGet h mid with _ | fr
      · simp [hm]
      · cases fr <;> simp [hm, heapGet_set_ne _ _ _ _ hne]

/-!
### The claims
-/

/-- Claim C1: whenever either dataset selection is `None` or the two
selections are identical, `update_plots` returns the explicit empty result
for all three outputs (no merge is attempted, no error is raised). -/
theorem C1_guard_returns_empty (df : List (String × Table)) (f1 f2 : Option String)
    (cc : Option (List String)) (h : f1 = none ∨ f2 = none ∨ f1 = f2) :
    update_plots df f1 f2 cc = .ok Output.empty := by
  rcases h with rfl | rfl | rfl
  · rfl
  · cases f1 <;> rfl
  · cases f1 with
    | none => rfl
    | some a =>
        show (if a = a then Except.ok Output.empty else _) = _
        rw [if_pos rfl]

/-- Witness for C1 at a concrete guarded input (same file twice). -/
theorem C1_guard_witness :
    update_plots exDf (some "A.csv") (some "A.csv") none = .ok Output.empty :=
  C1_guard_returns_empty exDf _ _ none (Or.inr (Or.inr rfl))

/-- Claim C2: for distinct, schema-valid selections (duplicate-free
positions), the merged view has exactly one row per shared `position`
value, and the scatter plot has exactly one point per merged row. -/
theorem C2_merged_rowcount (df : List (String × Table)) (f1 f2 : String) (t1 t2 : Table)
    (cc : Option (List String)) (s : ScatterFig) (g1 g2 : HeatmapFig)
    (hl1 : alookup df f1 = some t1) (hl2 : alookup df f2 = some t2) (hne : f1 ≠ f2)
    (hn1 : (t1.rows.map fun r => r.position).Nodup)
    (hn2 : (t2.rows.map fun r => r.position).Nodup)
    (hok : update_plots df (some f1) (some f2) cc = .ok (.figures s g1 g2)) :
    (mergeTables t1 t2).length = (sharedPositions t1 t2).length ∧
    s.points.length = (sharedPositions t1 t2).length := by
  obtain ⟨hs, -, -, -⟩ := update_ok_inv df f1 f2 t1 t2 cc s g1 g2 hl1 hl2 hne hok
  refine ⟨length_mergeTables t1 t2 hn2, ?_⟩
  rw [hs, List.length_map, length_assignColors, length_mergeTables t1 t2 hn2]

/-- Witness for C2 on the spec scenario (positions `[1,2,3]` vs `[2,3,4]`):
2 shared positions, 2 merged rows, 2 scatter points. -/
theorem C2_merged_rowcount_witness :
    ((mergeTables exA exB).length = (sharedPositions exA exB).length ∧
     (scatterOf exRes).points.length = (sharedPositions exA exB).length) ∧
    (sharedPositions exA exB).length = 2 :=
  ⟨C2_merged_rowcount exDf "A.csv" "B.csv" exA exB none
      (scatterOf exRes) (heat1Of exRes) (heat2Of exRes)
      rfl rfl (by decide) (by decide) (by decide) rfl,
   by decide⟩

/-- Claim C3: when a merged row satisfies one or more of the selected flag
columns, its final color is the one mapped to the LAST satisfied column in
selection order (last write wins). -/
theorem C3_last_selected_wins (rows : List MergedRow) (cols : List String) (i : Nat)
    (r : MergedRow) (c : String) (hi : rows[i]? = some r)
    (hlast : (cols.filter fun col => flagYes r.flags_1 col).getLast? = some c) :
    ((assignColors rows cols)[i]?).map MergedRow.color = some (colorOf c) := by
  rw [assignColors_getElem?, hi]
  show some (rowColorFrom r.flags_1 r.color cols) = some (colorOf c)
  rw [rowColorFrom_spec, hlast]

/-- Witness for C3: with `["site_1","c_c"]` selected and both flags `"yes"`,
the row's color is `"orange"` (the color of `c_c`), not `"green"`. -/
theorem C3_last_selected_wins_witness :
    ((assignColors [exRow3] ["site_1", "c_c"])[0]?).map MergedRow.color = some "orange" :=
  C3_last_selected_wins [exRow3] ["site_1", "c_c"] 0 exRow3 "c_c" rfl (by decide)

/-- Claim C4 (code bug): the first heatmap's hover text is built from the
SECOND selected file's columns (lines 171-182 read `df2` throughout), so it
equals `hover_text` of the second table even when the two tables' hover
data differ. -/
theorem C4_heatmap1_hover_from_second_file :
    (heat1Of exResC).text = hover_text exC2 ∧ hover_text exC1 ≠ hover_text exC2 :=
  ⟨rfl, by decide⟩

/-- Claim C5: each heatmap's value matrix is the transpose-preserving copy
of its own file's score block (cell `(j,i)` is row `i`'s score in block
column `j`), with the color-scale domain fixed to `[-0.8, 0.8]`. -/
theorem C5_heatmap_matrix (df : List (String × Table)) (f1 f2 : String) (t1 t2 : Table)
    (cc : Option (List String)) (s : ScatterFig) (g1 g2 : HeatmapFig)
    (i1 j1 i2 j2 : Nat) (r1 r2 : Row) (v1 v2 : ℚ)
    (hl1 : alookup df f1 = some t1) (hl2 : alookup df f2 = some t2) (hne : f1 ≠ f2)
    (hok : update_plots df (some f1) (some f2) cc = .ok (.figures s g1 g2))
    (hr1 : t1.rows[i1]? = some r1) (hj1 : j1 < t1.aaCols.length)
    (hv1 : r1.scores[j1]? = some v1)
    (hr2 : t2.rows[i2]? = some r2) (hj2 : j2 < t2.aaCols.length)
    (hv2 : r2.scores[j2]? = some v2) :
    getZ g1 j1 i1 = some v1 ∧ g1.zmin = -0.8 ∧ g1.zmax = 0.8 ∧
    getZ g2 j2 i2 = some v2 ∧ g2.zmin = -0.8 ∧ g2.zmax = 0.8 := by
  obtain ⟨-, -, hg1, hg2⟩ := update_ok_inv df f1 f2 t1 t2 cc s g1 g2 hl1 hl2 hne hok
  subst hg1; subst hg2
  exact ⟨getZ_mkHeatmap _ _ _ _ _ _ _ hr1 hj1 hv1, rfl, rfl,
         getZ_mkHeatmap _ _ _ _ _ _ _ hr2 hj2 hv2, rfl, rfl⟩

/-- Witness for C5 on the spec scenario: cell `(0,0)` of each heatmap equals
the corresponding file's first score, and the bounds are `±0.8`. -/
theorem C5_heatmap_matrix_witness :
    getZ (heat1Of exRes) 0 0 = some 0.1 ∧
    (heat1Of exRes).zmin = -0.8 ∧ (heat1Of exRes).zmax = 0.8 ∧
    getZ (heat2Of exRes) 0 0 = some 0.05 ∧
    (heat2Of exRes).zmin = -0.8 ∧ (heat2Of exRes).zmax = 0.8 :=
  C5_heatmap_matrix exDf "A.csv" "B.csv" exA exB none
    (scatterOf exRes) (heat1Of exRes) (heat2Of exRes)
    0 0 0 0
    { position := 1, wt_aa := "M", median_score := 0.1, scores := [0.1], flags := noFlags }
    { position := 2, wt_aa := "K", median_score := 0.05, scores := [0.05], flags := noFlags }
    0.1 0.05
    rfl rfl (by decide) rfl rfl (by decide) rfl rfl (by decide) rfl

/-- Claim C6: selecting more than 4 flag columns behaves exactly like
selecting only the first 4 — the whole callback output is identical. -/
theorem C6_truncation (df : List (String × Table)) (f1 f2 : Option String)
    (cols : List String) (h : 4 < cols.length) :
    update_plots df f1 f2 (some cols) = update_plots df f1 f2 (some (cols.take 4)) := by
  have he : effCols (some cols) = effCols (some (cols.take 4)) := by
    simp [effCols, List.take_take]
  cases f1 with
  | none => rfl
  | some a =>
      cases f2 with
      | none => rfl
      | some b =>
          by_cases hab : a = b
          · show (if a = b then _ else _) = (if a = b then _ else _)
            rw [if_pos hab, if_pos hab]
          · show (if a = b then _ else _) = (if a = b then _ else _)
            rw [if_neg hab, if_neg hab]
            simp only [he]

/-- Witness for C6 at a concrete 5-column selection. -/
theorem C6_truncation_witness :
    update_plots exDf (some "A.csv") (some "B.csv")
        (some ["site_1", "site_2", "ab8307_site", "ab8314_site", "c_c"]) =
      update_plots exDf (some "A.csv") (some "B.csv")
        (some (["site_1", "site_2", "ab8307_site", "ab8314_site", "c_c"].take 4)) :=
  C6_truncation exDf _ _ _ (by decide)

/-- Claim C7: every merged row starts at the default color `"gray"`, and a
row whose satisfied selected columns (if any) all miss the static
`color_map` ends with the default color — in particular a row satisfying
none of the selected columns keeps the default. -/
theorem C7_default_category (t1 t2 : Table) (cols : List String) (i : Nat) (r : MergedRow)
    (hr : (mergeTables t1 t2)[i]? = some r)
    (hno : ∀ c ∈ cols, flagYes r.flags_1 c = true → alookup color_map c = none) :
    r.color = "gray" ∧
    ((assignColors (mergeTables t1 t2) cols)[i]?).map MergedRow.color = some "gray" := by
  have hgray : r.color = "gray" := color_of_mem_mergeRows (List.getElem?_mem hr)
  refine ⟨hgray, ?_⟩
  rw [assignColors_getElem?, hr]
  show some (rowColorFrom r.flags_1 r.color cols) = some "gray"
  rw [hgray, rowColorFrom_spec]
  rcases hl : (cols.filter fun c => flagYes r.flags_1 c).getLast? with _ | c
  · rfl
  · have hcmem := List.mem_of_getLast?_eq_some hl
    obtain ⟨hc_cols, hc_yes⟩ := List.mem_filter.mp hcmem
    show some (colorOf c) = some "gray"
    rw [colorOf, hno c hc_cols hc_yes]
    rfl

/-- Witness for C7: the shared row has `site_1 = "no"` and an unmapped
column `special = "yes"`; with `["site_1","special"]` selected it keeps the
default color. -/
theorem C7_default_category_witness :
    ((mergeTables exD1 exD2).getD 0 default).color = "gray" ∧
    ((assignColors (mergeTables exD1 exD2) ["site_1", "special"])[0]?).map
      MergedRow.color = some "gray" :=
  C7_default_category exD1 exD2 ["site_1", "special"] 0 _ rfl (by decide)

/-- Claim C8: under duplicate-free positions, a merged row's label (with its
leader line) appears in the scatter figure's label list exactly when the
row's final color differs from the default `"gray"`. -/
theorem C8_label_iff (df : List (String × Table)) (f1 f2 : String) (t1 t2 : Table)
    (cc : Option (List String)) (s : ScatterFig) (g1 g2 : HeatmapFig) (r : MergedRow)
    (hl1 : alookup df f1 = some t1) (hl2 : alookup df f2 = some t2) (hne : f1 ≠ f2)
    (hn1 : (t1.rows.map fun r => r.position).Nodup)
    (hn2 : (t2.rows.map fun r => r.position).Nodup)
    (hok : update_plots df (some f1) (some f2) cc = .ok (.figures s g1 g2))
    (hr : r ∈ assignColors (mergeTables t1 t2) (effCols cc)) :
    mkLabel r ∈ s.labels ↔ r.color ≠ "gray" := by
  obtain ⟨-, hlab, -, -⟩ := update_ok_inv df f1 f2 t1 t2 cc s g1 g2 hl1 hl2 hne hok
  have hnodup : ((assignColors (mergeTables t1 t2) (effCols cc)).map
      MergedRow.position).Nodup := by
    rw [positions_assignColors]
    exact nodup_merge_positions t1 t2 hn1 hn2
  rw [hlab]
  constructor
  · intro hmem
    obtain ⟨r', hr'f, hrr⟩ := List.mem_map.mp hmem
    obtain ⟨hr'mem, hr'col⟩ := List.mem_filter.mp hr'f
    have hpos : r'.position = r.position := congrArg PosLabel.text hrr
    have heq : r' = r := List.inj_on_of_nodup_map hnodup hr'mem hr hpos
    subst heq
    exact bne_iff_ne.mp hr'col
  · intro hcol
    exact List.mem_map_of_mem _ (List.mem_filter.mpr ⟨hr, bne_iff_ne.mpr hcol⟩)

/-- Witness for C8: in the coloring example the single merged row is
colored `"green"` by `site_1`, and indeed its label is attached. -/
theorem C8_label_iff_witness :
    mkLabel (exColoredC.getD 0 default) ∈ (scatterOf exResC).labels ↔
      (exColoredC.getD 0 default).color ≠ "gray" :=
  C8_label_iff exDfC "one.csv" "two.csv" exC1 exC2 (some ["site_1"])
    (scatterOf exResC) (heat1Of exResC) (heat2Of exResC) _
    rfl rfl (by decide) (by decide) (by decide) rfl
    (List.getElem?_mem (n := 0) rfl)

/-- Claim C9: the callback never mutates the loaded tables — every frame
object present on the heap before the call is unchanged after it (the merge
allocates a fresh frame and all color writes target only that frame). -/
theorem C9_no_mutation (heap : FrameHeap) (names : List (String × Nat))
    (f1 f2 : Option String) (cc : Option (List String)) (id : Nat) (fr : Frame)
    (h : heapGet heap id = some fr) :
    heapGet (update_plots_heap heap names f1 f2 cc).1 id = some fr := by
  cases f1 with
  | none => exact h
  | some a =>
      cases f2 with
      | none => exact h
      | some b =>
          simp only [update_plots_heap]
          split
          · exact h
          · split
            · split
              · have hmid : id ≠ freshId heap := by
                  intro he
                  rw [he, heapGet_freshId heap] at h
                  exact Option.noConfusion h
                show heapGet (colorLoopHeap (freshId heap) (effCols cc) _) id = some fr
                rw [colorLoopHeap_preserves _ _ _ _ hmid, heapGet_set_ne _ _ _ _ hmid]
                exact h
              · exact h
            · exact h

/-- Witness for C9 at a concrete two-table heap. -/
theorem C9_no_mutation_witness :
    heapGet (update_plots_heap [(0, Frame.table exA), (1, Frame.table exB)]
        [("A.csv", 0), ("B.csv", 1)] (some "A.csv") (some "B.csv") none).1 0 =
      some (Frame.table exA) :=
  C9_no_mutation _ _ _ _ _ 0 (Frame.table exA) rfl

/-- Claim C10: for two distinct files whose tables share no `position`, the
callback raises the empty-sequence `ValueError` from `min` while building
the zero-reference lines — the guard does not cover the empty merge. -/
theorem C10_empty_merge_raises :
    update_plots exDfDisj (some "a.csv") (some "b.csv") none =
      .error "min() arg is an empty sequence" := rfl
